import Mathlib

/-!
Verification of the srcf-python administrative helpers: the MySQL
user/database management functions (`srcflib/plumbing/mysql.py`) and the
group membership scripts (`srcflib/scripts/group.py`), embedded shallowly
as pure Lean functions over explicit server / store states and event traces.
-/

namespace Common

/-- Modelled from the spec: `State` from `srcflib/plumbing/common.py`
(not under src/): the outcome tag of a `Result`, one of success or
unchanged (failure is signalled by an exception instead). -/
inductive State
  | success
  | unchanged
deriving DecidableEq, Repr

/-- Modelled from the spec: `Result` from `srcflib/plumbing/common.py`
(not under src/): a tagged outcome with an optional payload, meaningful
only on success. -/
structure Result (α : Type) where
  state : State
  payload : Option α
deriving DecidableEq, Repr

/-- Modelled from the spec: `Password` from `srcflib/plumbing/common.py`
(not under src/): an opaque generated secret value wrapping its string
form. -/
structure Password where
  value : String
deriving DecidableEq, Repr

/-- Modelled from the spec: `Password.new` generates a fresh random
password; randomness is modelled by an explicit generator seed, distinct
seeds giving distinct non-empty passwords. -/
def Password.new (g : Nat) : Password :=
  ⟨"pw-" ++ toString g⟩

end Common

namespace Mysql

open Common

/-- The state of the external MySQL server: existing users with their
passwords, privilege grants as (user, database) pairs, and databases. -/
structure ServerState where
  users : List (String × String)
  grants : List (String × String)
  databases : List String
deriving DecidableEq, Repr

/-- Whether a user with the given name exists on the server. -/
def userExists (st : ServerState) (name : String) : Bool :=
  st.users.any (fun u => u.1 == name)

/-- Whether the server holds an all-privileges grant for (user, db). -/
def hasGrant (st : ServerState) (user db : String) : Bool :=
  st.grants.contains (user, db)

/-- Whether a database with the given name exists on the server. -/
def dbExists (st : ServerState) (name : String) : Bool :=
  st.databases.contains name

/-- Update the stored password of the named user, if present. -/
def setUserPassword (st : ServerState) (name pw : String) : ServerState :=
  { st with users := st.users.map (fun u => if u.1 == name then (u.1, pw) else u) }

/-- The SQL statements issued by `srcflib/plumbing/mysql.py`, in parsed
form (the cursor executes the corresponding statement text). -/
inductive Stmt
  | createUserIfNotExists (name pw : String)
  | setPasswordFor (name pw : String)
  | dropUserIfExists (name : String)
  | grantAllOn (db user : String)
  | revokeAllOn (db user : String)
  | createDatabaseIfNotExists (name : String)
  | dropDatabaseIfExists (name : String)
deriving DecidableEq, Repr

/-- Server semantics of each statement: the affected-row count reported
by the cursor together with the successor server state.  `CREATE USER IF
NOT EXISTS` / `DROP USER IF EXISTS` / `GRANT` / `REVOKE` report a row
exactly when something changed; `SET PASSWORD` reports a row exactly when
the user exists; per the code comments in `srcflib/plumbing/mysql.py`,
`CREATE DATABASE` always reports one row and `DROP DATABASE` always
reports zero rows. -/
def exec (st : ServerState) : Stmt → Nat × ServerState
  | .createUserIfNotExists name pw =>
      if userExists st name then (0, st)
      else (1, { st with users := (name, pw) :: st.users })
  | .setPasswordFor name pw =>
      if userExists st name then (1, setUserPassword st name pw) else (0, st)
  | .dropUserIfExists name =>
      if userExists st name then
        (1, { st with users := st.users.filter (fun u => u.1 != name),
                      grants := st.grants.filter (fun gr => gr.1 != name) })
      else (0, st)
  | .grantAllOn db user =>
      if hasGrant st user db then (0, st)
      else (1, { st with grants := (user, db) :: st.grants })
  | .revokeAllOn db user =>
      if hasGrant st user db then
        (1, { st with grants := st.grants.filter (fun gr => gr != (user, db)) })
      else (0, st)
  | .createDatabaseIfNotExists name =>
      (1, if dbExists st name then st else { st with databases := name :: st.databases })
  | .dropDatabaseIfExists name =>
      (0, { st with databases := st.databases.filter (fun d => d != name) })

/-- A query argument as passed to `query`: either a plain string or a
`Password` object (stringified only at execute time). -/
inductive Arg
  | str (s : String)
  | pw (p : Password)
deriving DecidableEq, Repr

/-- `str(arg) if isinstance(arg, Password) else arg` from `query`. -/
def argVal : Arg → String
  | .str s => s
  | .pw p => p.value

/-- Observable events of a cursor operation: the debug log call (with the
raw argument tuple, passwords included) and the statement execution (with
stringified arguments). -/
inductive Event
  | log (sql : String) (args : List Arg)
  | execute (sql : String) (args : List String)
deriving DecidableEq, Repr

/-- `query` from `srcflib/plumbing/mysql.py`: log the statement and raw
arguments at debug level, execute the statement with stringified
arguments, and return whether any rows were affected.  The statement is
carried both as its text (`sql`, for the trace) and in parsed form
(`stmt`, which the server executes). -/
def query (st : ServerState) (sql : String) (args : List Arg) (stmt : Stmt) :
    List Event × Bool × ServerState :=
  let r := exec st stmt
  ([Event.log sql args, Event.execute sql (args.map argVal)], r.1 != 0, r.2)

/-- Doubling of identifier-quote characters, char-level:
`lit.replace(qc, qc + qc)` where qc is the identifier-quote character. -/
def escQuote : List Char → List Char
  | [] => []
  | c :: rest => if c = '`' then '`' :: '`' :: escQuote rest else c :: escQuote rest

/-- One formatted identifier parameter of `_format`: the literal with
embedded quote characters doubled, wrapped in identifier quotes. -/
def quoteIdent (lit : List Char) : List Char :=
  '`' :: (escQuote lit ++ ['`'])

/-- `str.format` substitution of `_format`: each `\x7b\x7d` placeholder
is replaced, in order, by the next parameter. -/
def substFmt : List Char → List (List Char) → List Char
  | [], _ => []
  | '{' :: '}' :: rest, p :: ps => p ++ substFmt rest ps
  | c :: rest, ps => c :: substFmt rest ps

/-- `_format` from `srcflib/plumbing/mysql.py`: quote each literal as an
identifier and substitute the results for the placeholders of `sql`. -/
def _format (sql : String) (literals : List String) : String :=
  ⟨substFmt sql.data (literals.map (fun l => quoteIdent l.data))⟩

/-- How the server lexes a quoted identifier out of the statement text:
after the opening quote character, a doubled quote character stands for a
literal quote character inside the identifier and a single one closes it.
Returns the identifier's characters and the remaining statement text. -/
def quotedBody : List Char → Option (List Char × List Char)
  | [] => none
  | c :: rest =>
      if c = '`' then
        match rest with
        | '`' :: rest2 =>
            match quotedBody rest2 with
            | some (acc, r) => some ('`' :: acc, r)
            | none => none
        | _ => some ([], rest)
      else
        match quotedBody rest with
        | some (acc, r) => some (c :: acc, r)
        | none => none

/-- Lex one quoted identifier at the start of the statement text. -/
def lexQuoted : List Char → Option (List Char × List Char)
  | '`' :: rest => quotedBody rest
  | _ => none

/-- `create_user` from `srcflib/plumbing/mysql.py`.  The fresh random
password is modelled by the explicit generator seed `g`. -/
def create_user (st : ServerState) (name : String) (g : Nat) :
    List Event × Result Password × ServerState :=
  let passwd := Password.new g
  let q := query st "CREATE USER IF NOT EXISTS %s@\x27%%\x27 IDENTIFIED BY %s"
      [Arg.str name, Arg.pw passwd] (Stmt.createUserIfNotExists name passwd.value)
  (q.1, if q.2.1 then ⟨State.success, some passwd⟩ else ⟨State.unchanged, none⟩, q.2.2)

/-- `reset_password` from `srcflib/plumbing/mysql.py`; the raised
`LookupError` is modelled as `Except.error` carrying its message. -/
def reset_password (st : ServerState) (name : String) (g : Nat) :
    List Event × Except String (Result Password) × ServerState :=
  let passwd := Password.new g
  let q := query st "SET PASSWORD FOR %s@\x27%%\x27 = %s"
      [Arg.str name, Arg.pw passwd] (Stmt.setPasswordFor name passwd.value)
  (q.1,
   if q.2.1 then Except.ok ⟨State.success, some passwd⟩
   else Except.error ("No MySQL user " ++ name ++ " to reset password"),
   q.2.2)

/-- `_truthy` from `srcflib/plumbing/mysql.py`. -/
def _truthy (test : Bool) : Result Unit :=
  if test then ⟨State.success, none⟩ else ⟨State.unchanged, none⟩

/-- `drop_user` from `srcflib/plumbing/mysql.py`. -/
def drop_user (st : ServerState) (name : String) :
    List Event × Result Unit × ServerState :=
  let q := query st "DROP USER IF EXISTS %s@\x27%%\x27" [Arg.str name]
      (Stmt.dropUserIfExists name)
  (q.1, _truthy q.2.1, q.2.2)

/-- `grant_database` from `srcflib/plumbing/mysql.py`. -/
def grant_database (st : ServerState) (user db : String) :
    List Event × Result Unit × ServerState :=
  let q := query st (_format "GRANT ALL ON {}.* TO %s@\x27%%\x27" [db]) [Arg.str user]
      (Stmt.grantAllOn db user)
  (q.1, _truthy q.2.1, q.2.2)

/-- `revoke_database` from `srcflib/plumbing/mysql.py`. -/
def revoke_database (st : ServerState) (user db : String) :
    List Event × Result Unit × ServerState :=
  let q := query st (_format "REVOKE ALL ON {}.* FROM %s@\x27%%\x27" [db]) [Arg.str user]
      (Stmt.revokeAllOn db user)
  (q.1, _truthy q.2.1, q.2.2)

/-- `create_database` from `srcflib/plumbing/mysql.py`: the affected-row
report of the statement is discarded and success returned always. -/
def create_database (st : ServerState) (name : String) :
    List Event × Result Unit × ServerState :=
  let q := query st (_format "CREATE DATABASE IF NOT EXISTS {}" [name]) []
      (Stmt.createDatabaseIfNotExists name)
  (q.1, ⟨State.success, none⟩, q.2.2)

/-- `drop_database` from `srcflib/plumbing/mysql.py`: the affected-row
report of the statement is discarded and success returned always. -/
def drop_database (st : ServerState) (name : String) :
    List Event × Result Unit × ServerState :=
  let q := query st (_format "DROP DATABASE IF EXISTS {}" [name]) []
      (Stmt.dropDatabaseIfExists name)
  (q.1, ⟨State.success, none⟩, q.2.2)

end Mysql

namespace Group

/-- A member record from the external membership store: the fields of
`srcf.database.schema.Member` read by `srcflib/scripts/group.py`. -/
structure Member where
  crsid : String
  name : String
deriving DecidableEq

/-- A society (group account) record from the external membership store:
the fields of `srcf.database.schema.Society` read by
`srcflib/scripts/group.py`; `admin_crsids` is the set of member
identifiers currently admin on the society. -/
structure Society where
  society : String
  description : String
  admin_crsids : Finset String
deriving DecidableEq

/-- Modelled from the spec: the persistent membership record store owned
by the ORM-backed membership collaborator (`srcflib/tasks/membership.py`
is not under src/), holding the society records. -/
structure Store where
  societies : List Society
deriving DecidableEq

/-- Modelled from the spec: `membership.add_society_admin` adds the
member as admin of the society in the persistent record store. -/
def add_society_admin (st : Store) (m : Member) (s : Society) : Store :=
  ⟨st.societies.map (fun t =>
      if t.society = s.society then
        { t with admin_crsids := insert m.crsid t.admin_crsids }
      else t)⟩

/-- Modelled from the spec: `membership.remove_society_admin` removes
the member as admin of the society in the persistent record store. -/
def remove_society_admin (st : Store) (m : Member) (s : Society) : Store :=
  ⟨st.societies.map (fun t =>
      if t.society = s.society then
        { t with admin_crsids := t.admin_crsids.erase m.crsid }
      else t)⟩

/-- Modelled from the spec: `membership.delete_society` deletes the
society's account and all associated records from the store. -/
def delete_society (st : Store) (s : Society) : Store :=
  ⟨st.societies.filter (fun t => t.society != s.society)⟩

/-- Observable events of a membership script: a non-fatal warning
(`error` from the script utils), the interactive confirmation prompt
(`confirm`, which aborts the script on "no"), and a delegated mutation of
the membership store, named after the collaborator function invoked. -/
inductive SEvent
  | warn (msg : String)
  | confirmPrompt (msg : String)
  | mutate (name : String)
deriving DecidableEq

/-- `grant` from `srcflib/scripts/group.py`: warn if already an admin,
confirm, then delegate `add_society_admin`.  `confirmOk` models the
interactive answer: on `false`, `confirm` aborts the script after the
prompt and the store is left untouched. -/
def grant (confirmOk : Bool) (st : Store) (member : Member) (society : Society) :
    List SEvent × Store :=
  let warns :=
    if member.crsid ∈ society.admin_crsids then
      [SEvent.warn ("Warning: " ++ member.crsid ++ " is already an admin of "
          ++ society.society)]
    else []
  let prompt := SEvent.confirmPrompt ("Add " ++ member.name ++ " to "
      ++ society.description ++ "?")
  if confirmOk then
    (warns ++ [prompt, SEvent.mutate "add_society_admin"],
     add_society_admin st member society)
  else
    (warns ++ [prompt], st)

/-- `revoke` from `srcflib/scripts/group.py`: warn if not an admin, or
else if the sole remaining admin, confirm, then delegate
`remove_society_admin`. -/
def revoke (confirmOk : Bool) (st : Store) (member : Member) (society : Society) :
    List SEvent × Store :=
  let warns :=
    if member.crsid ∉ society.admin_crsids then
      [SEvent.warn ("Warning: " ++ member.crsid ++ " is not an admin of "
          ++ society.society)]
    else if society.admin_crsids = {member.crsid} then
      [SEvent.warn "Warning: removing the only remaining admin"]
    else []
  let prompt := SEvent.confirmPrompt ("Remove " ++ member.name ++ " from "
      ++ society.description ++ "?")
  if confirmOk then
    (warns ++ [prompt, SEvent.mutate "remove_society_admin"],
     remove_society_admin st member society)
  else
    (warns ++ [prompt], st)

/-- `delete` from `srcflib/scripts/group.py`: confirm, then delegate
`delete_society`. -/
def delete (confirmOk : Bool) (st : Store) (society : Society) :
    List SEvent × Store :=
  let prompt := SEvent.confirmPrompt ("Delete " ++ society.description ++ "?")
  if confirmOk then
    ([prompt, SEvent.mutate "delete_society"], delete_society st society)
  else
    ([prompt], st)

/-- No delegated mutation appears in the trace. -/
def noMutate (tr : List SEvent) : Prop :=
  ∀ m, SEvent.mutate m ∉ tr

/-- Every delegated mutation in the trace is preceded by a confirmation
prompt that returned. -/
def mutateAfterConfirm (tr : List SEvent) : Prop :=
  ∀ i m, tr.get? i = some (SEvent.mutate m) →
    ∃ j c, j < i ∧ tr.get? j = some (SEvent.confirmPrompt c)

end Group

namespace Mysql

open Common

theorem escQuote_flatMap (lit : List Char) :
    escQuote lit = lit.flatMap (fun c => if c = '`' then ['`', '`'] else [c]) := by
  induction lit with
  | nil => rfl
  | cons c cs ih => by_cases hc : c = '`' <;> simp [escQuote, hc, ih]

theorem quotedBody_rt (lit rest : List Char) (h : rest.head? ≠ some '`') :
    quotedBody (escQuote lit ++ '`' :: rest) = some (lit, rest) := by
  induction lit with
  | nil =>
      cases rest with
      | nil => rfl
      | cons a rs =>
          have ha : a ≠ '`' := by
            intro hEq
            exact h (by simp [hEq])
          simp [escQuote, quotedBody, ha]
  | cons c cs ih =>
      by_cases hc : c = '`'
      · subst hc
        simp [escQuote, quotedBody, ih]
      · have he : escQuote (c :: cs) = c :: escQuote cs := by simp [escQuote, hc]
        rw [he, quotedBody.eq_def]
        simp [hc, ih]

theorem userExists_filter_ne (l : List (String × String)) (name : String) :
    ((l.filter fun u => u.1 != name).any fun u => u.1 == name) = false := by
  induction l with
  | nil => rfl
  | cons a t ih =>
      by_cases h : a.1 = name
      · simp [List.filter_cons, h, ih]
      · simp [List.filter_cons, h, ih]

/-- C1: `create_user` generates a fresh password, issues a single
idempotent CREATE USER IF NOT EXISTS statement, and returns success
carrying that password exactly when the statement reports rows affected
(the user was absent and is now created); when the user already existed
it returns unchanged with no payload, and a subsequent call with the same
name returns unchanged with no payload. -/
theorem create_user_spec (st : ServerState) (name : String) (g g2 : Nat) :
    (create_user st name g).2.1 =
      (if userExists st name then (⟨State.unchanged, none⟩ : Result Password)
       else ⟨State.success, some (Password.new g)⟩) ∧
    ((create_user st name g).2.1.state = State.success ↔
      (exec st (Stmt.createUserIfNotExists name (Password.new g).value)).1 ≠ 0) ∧
    (create_user st name g).1 =
      [Event.log "CREATE USER IF NOT EXISTS %s@\x27%%\x27 IDENTIFIED BY %s"
         [Arg.str name, Arg.pw (Password.new g)],
       Event.execute "CREATE USER IF NOT EXISTS %s@\x27%%\x27 IDENTIFIED BY %s"
         [name, (Password.new g).value]] ∧
    userExists (create_user st name g).2.2 name = true ∧
    (create_user (create_user st name g).2.2 name g2).2.1 = ⟨State.unchanged, none⟩ := by
  have hafter : userExists (create_user st name g).2.2 name = true := by
    by_cases h : userExists st name = true
    · have hs : (create_user st name g).2.2 = st := by
        simp [create_user, query, exec, h]
      rw [hs]
      exact h
    · have h' : userExists st name = false := by simpa using h
      have hs : (create_user st name g).2.2 =
          { st with users := (name, (Password.new g).value) :: st.users } := by
        simp [create_user, query, exec, h']
      rw [hs]
      simp [userExists]
  refine ⟨?_, ?_, rfl, hafter, ?_⟩
  · cases h : userExists st name <;> simp [create_user, query, exec, h]
  · cases h : userExists st name <;> simp [create_user, query, exec, h]
  · have h2 := hafter
    set st2 := (create_user st name g).2.2 with hst2
    simp [create_user, query, exec, h2]

/-- C2: `reset_password` raises a lookup error exactly when no user with
the given name exists, in which case the server state is untouched; when
the user exists it returns success carrying the newly generated password
and only that user's password is set. -/
theorem reset_password_spec (st : ServerState) (name : String) (g : Nat) :
    (reset_password st name g).2.1 =
      (if userExists st name then
        Except.ok (⟨State.success, some (Password.new g)⟩ : Result Password)
       else Except.error ("No MySQL user " ++ name ++ " to reset password")) ∧
    ((∃ e, (reset_password st name g).2.1 = Except.error e) ↔
      userExists st name = false) ∧
    (reset_password st name g).2.2 =
      (if userExists st name then setUserPassword st name (Password.new g).value
       else st) := by
  cases h : userExists st name <;>
    simp [reset_password, query, exec, h]

/-- C4: `create_database` and `drop_database` always return success with
no payload, regardless of the server state (so in particular regardless
of whether the database pre-existed and of the affected-row report);
two consecutive `create_database` calls with the same name both return
success. -/
theorem create_drop_database_spec (st st2 : ServerState) (name name2 : String) :
    (create_database st name).2.1 = ⟨State.success, none⟩ ∧
    (drop_database st name).2.1 = ⟨State.success, none⟩ ∧
    (create_database (create_database st name).2.2 name).2.1 = ⟨State.success, none⟩ ∧
    (drop_database (drop_database st name).2.2 name).2.1 = ⟨State.success, none⟩ ∧
    (create_database st name).2.1 = (create_database st2 name2).2.1 ∧
    (drop_database st name).2.1 = (drop_database st2 name2).2.1 :=
  ⟨rfl, rfl, rfl, rfl, rfl, rfl⟩

/-- C5: `grant_database` returns success exactly when the grant statement
reports rows affected (equivalently, when the (user, db) privilege row
was not already present) and unchanged exactly otherwise; dually for
`revoke_database`; neither result carries a payload. -/
theorem grant_revoke_database_spec (st : ServerState) (user db : String) :
    ((grant_database st user db).2.1.state = State.success ↔
      (exec st (Stmt.grantAllOn db user)).1 ≠ 0) ∧
    ((grant_database st user db).2.1.state = State.unchanged ↔
      (exec st (Stmt.grantAllOn db user)).1 = 0) ∧
    (grant_database st user db).2.1.payload = none ∧
    ((revoke_database st user db).2.1.state = State.success ↔
      (exec st (Stmt.revokeAllOn db user)).1 ≠ 0) ∧
    ((revoke_database st user db).2.1.state = State.unchanged ↔
      (exec st (Stmt.revokeAllOn db user)).1 = 0) ∧
    (revoke_database st user db).2.1.payload = none ∧
    ((grant_database st user db).2.1.state = State.success ↔
      hasGrant st user db = false) ∧
    ((revoke_database st user db).2.1.state = State.success ↔
      hasGrant st user db = true) := by
  cases h : hasGrant st user db <;>
    simp [grant_database, revoke_database, query, exec, _truthy, h]

/-- C6: `drop_user` returns success (no payload) exactly when the user
was present and unchanged (no payload) when absent; after a call the user
no longer exists, so an immediately following call with the same name
returns unchanged. -/
theorem drop_user_spec (st : ServerState) (name : String) :
    (drop_user st name).2.1 =
      (if userExists st name then (⟨State.success, none⟩ : Result Unit)
       else ⟨State.unchanged, none⟩) ∧
    userExists (drop_user st name).2.2 name = false ∧
    (drop_user (drop_user st name).2.2 name).2.1 = ⟨State.unchanged, none⟩ ∧
    ((drop_user st name).2.1.state = State.success ↔ userExists st name = true) := by
  have hstate : ∀ h : userExists st name = true,
      (drop_user st name).2.2 =
        { st with users := st.users.filter (fun u => u.1 != name),
                  grants := st.grants.filter (fun gr => gr.1 != name) } := by
    intro h
    simp [drop_user, query, exec, h]
  have hafter : userExists (drop_user st name).2.2 name = false := by
    by_cases h : userExists st name = true
    · rw [hstate h]
      simp [userExists, userExists_filter_ne]
    · have h' : userExists st name = false := by simpa using h
      simp [drop_user, query, exec, h']
  refine ⟨?_, hafter, ?_, ?_⟩
  · cases h : userExists st name <;> simp [drop_user, query, exec, _truthy, h]
  · by_cases h : userExists st name = true
    · rw [hstate h]
      simp [drop_user, query, exec, _truthy, userExists, userExists_filter_ne]
    · have h' : userExists st name = false := by simpa using h
      simp [drop_user, query, exec, _truthy, h']
  · cases h : userExists st name <;> simp [drop_user, query, exec, _truthy, h]

/-- C3: the identifier-formatting helper embeds a database name as the
name with every embedded identifier-quote character doubled, wrapped in
identifier quotes; lexing a quoted identifier back out of the statement
text recovers exactly the original name and leaves the rest of the
statement intact, for every name (quote characters included), so the name
cannot alter the statement's structure.  Value arguments are passed as
bound parameters: `grant_database` embeds only the database name in the
statement text, passing the user as an argument, and `create_user`
executes a constant statement text with name and password as
arguments. -/
theorem format_identifier_spec (lit rest : List Char) (h : rest.head? ≠ some '`')
    (st : ServerState) (user db : String) :
    quoteIdent lit = '`' :: (escQuote lit ++ ['`']) ∧
    escQuote lit = lit.flatMap (fun c => if c = '`' then ['`', '`'] else [c]) ∧
    lexQuoted (quoteIdent lit ++ rest) = some (lit, rest) ∧
    (grant_database st user db).1 =
      [Event.log (_format "GRANT ALL ON {}.* TO %s@\x27%%\x27" [db]) [Arg.str user],
       Event.execute (_format "GRANT ALL ON {}.* TO %s@\x27%%\x27" [db]) [user]] ∧
    (create_user st user 0).1 =
      [Event.log "CREATE USER IF NOT EXISTS %s@\x27%%\x27 IDENTIFIED BY %s"
         [Arg.str user, Arg.pw (Password.new 0)],
       Event.execute "CREATE USER IF NOT EXISTS %s@\x27%%\x27 IDENTIFIED BY %s"
         [user, (Password.new 0).value]] := by
  refine ⟨rfl, escQuote_flatMap lit, ?_, rfl, rfl⟩
  have hsplit : quoteIdent lit ++ rest = '`' :: (escQuote lit ++ '`' :: rest) := by
    simp [quoteIdent]
  rw [hsplit]
  exact quotedBody_rt lit rest h

/-- Witness for C3 at the concrete database name foo(quote)bar and the
suffix of the grant statement. -/
theorem format_identifier_spec_witness :
    (".* TO %s".data.head? ≠ some '`') ∧
    lexQuoted (quoteIdent "foo`bar".data ++ ".* TO %s".data) =
      some ("foo`bar".data, ".* TO %s".data) := by
  have h : ".* TO %s".data.head? ≠ some '`' := by decide
  exact ⟨h,
    (format_identifier_spec "foo`bar".data ".* TO %s".data h
      ⟨[], [], []⟩ "u" "foo`bar").2.2.1⟩

/-- C10: in `create_user` and `reset_password` the freshly generated
password object is among the arguments handed to the debug-level log
event, which precedes the statement execution event in the trace — the
generated secret flows to the logger before the statement runs. -/
theorem password_logged_before_execute (st : ServerState) (name : String) (g : Nat) :
    (∃ sql args rest2, (create_user st name g).1 = Event.log sql args :: rest2 ∧
      Arg.pw (Password.new g) ∈ args ∧ ∃ s2 a2, Event.execute s2 a2 ∈ rest2) ∧
    (∃ sql args rest2, (reset_password st name g).1 = Event.log sql args :: rest2 ∧
      Arg.pw (Password.new g) ∈ args ∧ ∃ s2 a2, Event.execute s2 a2 ∈ rest2) := by
  constructor
  · exact ⟨"CREATE USER IF NOT EXISTS %s@\x27%%\x27 IDENTIFIED BY %s",
      [Arg.str name, Arg.pw (Password.new g)],
      [Event.execute "CREATE USER IF NOT EXISTS %s@\x27%%\x27 IDENTIFIED BY %s"
        [name, (Password.new g).value]],
      rfl, by simp,
      "CREATE USER IF NOT EXISTS %s@\x27%%\x27 IDENTIFIED BY %s",
      [name, (Password.new g).value], by simp⟩
  · exact ⟨"SET PASSWORD FOR %s@\x27%%\x27 = %s",
      [Arg.str name, Arg.pw (Password.new g)],
      [Event.execute "SET PASSWORD FOR %s@\x27%%\x27 = %s"
        [name, (Password.new g).value]],
      rfl, by simp,
      "SET PASSWORD FOR %s@\x27%%\x27 = %s",
      [name, (Password.new g).value], by simp⟩

end Mysql

namespace Group

theorem mutateAfterConfirm_two (c x : String) :
    mutateAfterConfirm [SEvent.confirmPrompt c, SEvent.mutate x] := by
  intro i m h
  cases i with
  | zero => simp [List.get?] at h
  | succ i =>
      cases i with
      | zero => exact ⟨0, c, Nat.zero_lt_one, rfl⟩
      | succ i => simp [List.get?] at h

theorem mutateAfterConfirm_three (w c x : String) :
    mutateAfterConfirm [SEvent.warn w, SEvent.confirmPrompt c, SEvent.mutate x] := by
  intro i m h
  cases i with
  | zero => simp [List.get?] at h
  | succ i =>
      cases i with
      | zero => simp [List.get?] at h
      | succ i =>
          cases i with
          | zero => exact ⟨1, c, Nat.one_lt_two, rfl⟩
          | succ i => simp [List.get?] at h

theorem mutateAfterConfirm_of_noMutate (tr : List SEvent) (h : noMutate tr) :
    mutateAfterConfirm tr := by
  intro i m hm
  exact absurd (List.get?_mem hm) (h m)

/-- C7: in each membership script the delegated mutation lies strictly
after the confirmation prompt in the event trace, and when confirmation
aborts the script performs no mutation and leaves the membership record
store untouched. -/
theorem scripts_confirm_before_mutate (ok : Bool) (st : Store)
    (member : Member) (society : Society) :
    mutateAfterConfirm (grant ok st member society).1 ∧
    mutateAfterConfirm (revoke ok st member society).1 ∧
    mutateAfterConfirm (delete ok st society).1 ∧
    (ok = false →
      (grant ok st member society).2 = st ∧
      noMutate (grant ok st member society).1 ∧
      (revoke ok st member society).2 = st ∧
      noMutate (revoke ok st member society).1 ∧
      (delete ok st society).2 = st ∧
      noMutate (delete ok st society).1) := by
  cases ok with
  | false =>
      have hg : noMutate (grant false st member society).1 := by
        by_cases h1 : member.crsid ∈ society.admin_crsids <;>
          simp [grant, noMutate, h1]
      have hr : noMutate (revoke false st member society).1 := by
        by_cases h1 : member.crsid ∈ society.admin_crsids <;>
          by_cases h2 : society.admin_crsids = {member.crsid} <;>
            simp [revoke, noMutate, h1, h2]
      have hd : noMutate (delete false st society).1 := by
        simp [delete, noMutate]
      refine ⟨mutateAfterConfirm_of_noMutate _ hg,
              mutateAfterConfirm_of_noMutate _ hr,
              mutateAfterConfirm_of_noMutate _ hd, ?_⟩
      intro _
      refine ⟨?_, hg, ?_, hr, ?_, hd⟩
      · by_cases h1 : member.crsid ∈ society.admin_crsids <;> simp [grant, h1]
      · by_cases h1 : member.crsid ∈ society.admin_crsids <;>
          by_cases h2 : society.admin_crsids = {member.crsid} <;>
            simp [revoke, h1, h2]
      · simp [delete]
  | true =>
      refine ⟨?_, ?_, ?_, ?_⟩
      · by_cases h1 : member.crsid ∈ society.admin_crsids
        · have ht : (grant true st member society).1 =
              [SEvent.warn ("Warning: " ++ member.crsid ++ " is already an admin of "
                  ++ society.society),
               SEvent.confirmPrompt ("Add " ++ member.name ++ " to "
                  ++ society.description ++ "?"),
               SEvent.mutate "add_society_admin"] := by
            simp [grant, h1]
          rw [ht]
          exact mutateAfterConfirm_three _ _ _
        · have ht : (grant true st member society).1 =
              [SEvent.confirmPrompt ("Add " ++ member.name ++ " to "
                  ++ society.description ++ "?"),
               SEvent.mutate "add_society_admin"] := by
            simp [grant, h1]
          rw [ht]
          exact mutateAfterConfirm_two _ _
      · by_cases h1 : member.crsid ∈ society.admin_crsids
        · by_cases h2 : society.admin_crsids = {member.crsid}
          · have ht : (revoke true st member society).1 =
                [SEvent.warn "Warning: removing the only remaining admin",
                 SEvent.confirmPrompt ("Remove " ++ member.name ++ " from "
                    ++ society.description ++ "?"),
                 SEvent.mutate "remove_society_admin"] := by
              simp [revoke, h1, h2]
            rw [ht]
            exact mutateAfterConfirm_three _ _ _
          · have ht : (revoke true st member society).1 =
                [SEvent.confirmPrompt ("Remove " ++ member.name ++ " from "
                    ++ society.description ++ "?"),
                 SEvent.mutate "remove_society_admin"] := by
              simp [revoke, h1, h2]
            rw [ht]
            exact mutateAfterConfirm_two _ _
        · have ht : (revoke true st member society).1 =
              [SEvent.warn ("Warning: " ++ member.crsid ++ " is not an admin of "
                  ++ society.society),
               SEvent.confirmPrompt ("Remove " ++ member.name ++ " from "
                  ++ society.description ++ "?"),
               SEvent.mutate "remove_society_admin"] := by
            simp [revoke, h1]
          rw [ht]
          exact mutateAfterConfirm_three _ _ _
      · have ht : (delete true st society).1 =
            [SEvent.confirmPrompt ("Delete " ++ society.description ++ "?"),
             SEvent.mutate "delete_society"] := by
          simp [delete]
        rw [ht]
        exact mutateAfterConfirm_two _ _
      · intro h
        exact absurd h (by simp)

/-- Witness for C7: aborting the confirmation on a concrete store leaves
it untouched and produces no mutation event in any of the three scripts. -/
theorem scripts_confirm_before_mutate_witness :
    (false = false) ∧
    ((Group.grant false ⟨[⟨"soc", "Soc Desc", {"ab1"}⟩]⟩ ⟨"ab1", "Alice"⟩
        ⟨"soc", "Soc Desc", {"ab1"}⟩).2 = ⟨[⟨"soc", "Soc Desc", {"ab1"}⟩]⟩ ∧
     noMutate (Group.grant false ⟨[⟨"soc", "Soc Desc", {"ab1"}⟩]⟩ ⟨"ab1", "Alice"⟩
        ⟨"soc", "Soc Desc", {"ab1"}⟩).1 ∧
     (Group.revoke false ⟨[⟨"soc", "Soc Desc", {"ab1"}⟩]⟩ ⟨"ab1", "Alice"⟩
        ⟨"soc", "Soc Desc", {"ab1"}⟩).2 = ⟨[⟨"soc", "Soc Desc", {"ab1"}⟩]⟩ ∧
     noMutate (Group.revoke false ⟨[⟨"soc", "Soc Desc", {"ab1"}⟩]⟩ ⟨"ab1", "Alice"⟩
        ⟨"soc", "Soc Desc", {"ab1"}⟩).1 ∧
     (Group.delete false ⟨[⟨"soc", "Soc Desc", {"ab1"}⟩]⟩
        ⟨"soc", "Soc Desc", {"ab1"}⟩).2 = ⟨[⟨"soc", "Soc Desc", {"ab1"}⟩]⟩ ∧
     noMutate (Group.delete false ⟨[⟨"soc", "Soc Desc", {"ab1"}⟩]⟩
        ⟨"soc", "Soc Desc", {"ab1"}⟩).1) :=
  ⟨rfl,
   (scripts_confirm_before_mutate false ⟨[⟨"soc", "Soc Desc", {"ab1"}⟩]⟩
      ⟨"ab1", "Alice"⟩ ⟨"soc", "Soc Desc", {"ab1"}⟩).2.2.2 rfl⟩

/-- C8: the revoke-admin script emits a warning exactly when the member
is not an admin of the society or is its sole remaining admin; in every
case the script reaches the confirmation prompt, and when confirmation
returns it delegates the removal to the membership collaborator. -/
theorem revoke_warning_spec (ok : Bool) (st : Store)
    (member : Member) (society : Society) :
    ((∃ w, SEvent.warn w ∈ (revoke ok st member society).1) ↔
      (member.crsid ∉ society.admin_crsids ∨
       society.admin_crsids = {member.crsid})) ∧
    (∃ c, SEvent.confirmPrompt c ∈ (revoke ok st member society).1) ∧
    (ok = true →
      SEvent.mutate "remove_society_admin" ∈ (revoke ok st member society).1 ∧
      (revoke ok st member society).2 = remove_society_admin st member society) := by
  by_cases h1 : member.crsid ∈ society.admin_crsids <;>
    by_cases h2 : society.admin_crsids = {member.crsid} <;>
      cases ok <;>
        simp [revoke, h1, h2]

/-- Witness for C8 at a concrete sole-admin society with confirmation
returning. -/
theorem revoke_warning_spec_witness :
    (true = true) ∧
    (SEvent.mutate "remove_society_admin" ∈
      (Group.revoke true ⟨[⟨"soc", "Soc Desc", {"ab1"}⟩]⟩ ⟨"ab1", "Alice"⟩
        ⟨"soc", "Soc Desc", {"ab1"}⟩).1 ∧
     (Group.revoke true ⟨[⟨"soc", "Soc Desc", {"ab1"}⟩]⟩ ⟨"ab1", "Alice"⟩
        ⟨"soc", "Soc Desc", {"ab1"}⟩).2 =
       remove_society_admin ⟨[⟨"soc", "Soc Desc", {"ab1"}⟩]⟩ ⟨"ab1", "Alice"⟩
        ⟨"soc", "Soc Desc", {"ab1"}⟩) :=
  ⟨rfl,
   (revoke_warning_spec true ⟨[⟨"soc", "Soc Desc", {"ab1"}⟩]⟩ ⟨"ab1", "Alice"⟩
      ⟨"soc", "Soc Desc", {"ab1"}⟩).2.2 rfl⟩

/-- C9: the grant-admin script emits a warning exactly when the member is
already an admin of the society; in every case the script reaches the
confirmation prompt, and when confirmation returns it delegates adding
the member as admin — the precondition check never blocks the mutation. -/
theorem grant_warning_spec (ok : Bool) (st : Store)
    (member : Member) (society : Society) :
    ((∃ w, SEvent.warn w ∈ (grant ok st member society).1) ↔
      member.crsid ∈ society.admin_crsids) ∧
    (∃ c, SEvent.confirmPrompt c ∈ (grant ok st member society).1) ∧
    (ok = true →
      SEvent.mutate "add_society_admin" ∈ (grant ok st member society).1 ∧
      (grant ok st member society).2 = add_society_admin st member society) := by
  by_cases h1 : member.crsid ∈ society.admin_crsids <;>
    cases ok <;>
      simp [grant, h1]

/-- Witness for C9 at a concrete society whose admin set already holds
the member, with confirmation returning. -/
theorem grant_warning_spec_witness :
    (true = true) ∧
    (SEvent.mutate "add_society_admin" ∈
      (Group.grant true ⟨[⟨"soc", "Soc Desc", {"ab1"}⟩]⟩ ⟨"ab1", "Alice"⟩
        ⟨"soc", "Soc Desc", {"ab1"}⟩).1 ∧
     (Group.grant true ⟨[⟨"soc", "Soc Desc", {"ab1"}⟩]⟩ ⟨"ab1", "Alice"⟩
        ⟨"soc", "Soc Desc", {"ab1"}⟩).2 =
       add_society_admin ⟨[⟨"soc", "Soc Desc", {"ab1"}⟩]⟩ ⟨"ab1", "Alice"⟩
        ⟨"soc", "Soc Desc", {"ab1"}⟩) :=
  ⟨rfl,
   (grant_warning_spec true ⟨[⟨"soc", "Soc Desc", {"ab1"}⟩]⟩ ⟨"ab1", "Alice"⟩
      ⟨"soc", "Soc Desc", {"ab1"}⟩).2.2 rfl⟩

end Group
